import Mathlib

/-!
Shallow embedding of `src/CardMerger/merger.py` (class `CardMerger` and its
helpers).  Python `Decimal` geometry is modelled exactly with `ℚ`; Python
`int()` applied to a nonnegative quotient truncates toward zero, modelled by
`pyInt`.  The mutable fields `self.paper_size` and `self.card_scale` are
passed as explicit arguments.
-/

/-- Python `int()` on a `Decimal`: truncation toward zero. -/
def pyInt (q : ℚ) : ℤ := if 0 ≤ q then ⌊q⌋ else ⌈q⌉

/-- `MIN_LEFT_MARGIN = 18` (merger.py line 27). -/
def MIN_LEFT_MARGIN : ℚ := 18

/-- `MIN_RIGHT_MARGIN = 18` (merger.py line 28). -/
def MIN_RIGHT_MARGIN : ℚ := 18

/-- `MIN_TOP_MARGIN = 18` (merger.py line 29). -/
def MIN_TOP_MARGIN : ℚ := 18

/-- `MIN_BOTTOM_MARGIN = 36` (merger.py line 30). -/
def MIN_BOTTOM_MARGIN : ℚ := 36

/-- The `PaperSize.LETTER` enum value `(612, 792)`. -/
def LETTER : ℚ × ℚ := (612, 792)

/-- The dataclass `PageLayout` (merger.py lines 105-115). -/
structure PageLayout where
  paper_size : ℚ × ℚ
  cards_per_page : ℤ
  card_rows : ℤ
  card_cols : ℤ
  card_height : ℚ
  card_width : ℚ
  card_scale : ℚ
  left_margin : ℚ
  bottom_margin : ℚ
deriving DecidableEq

/-- `card_cols_portrait` (merger.py lines 175-178). -/
def card_cols_portrait (paper_size : ℚ × ℚ) (card_scale : ℚ) (card_size : ℚ × ℚ) : ℤ :=
  pyInt ((paper_size.1 - MIN_LEFT_MARGIN - MIN_RIGHT_MARGIN) / (card_scale * card_size.1))

/-- `card_rows_portrait` (merger.py lines 179-182). -/
def card_rows_portrait (paper_size : ℚ × ℚ) (card_scale : ℚ) (card_size : ℚ × ℚ) : ℤ :=
  pyInt ((paper_size.2 - MIN_TOP_MARGIN - MIN_BOTTOM_MARGIN) / (card_scale * card_size.2))

/-- `card_rows_landscape` (merger.py lines 185-188). -/
def card_rows_landscape (paper_size : ℚ × ℚ) (card_scale : ℚ) (card_size : ℚ × ℚ) : ℤ :=
  pyInt ((paper_size.1 - MIN_LEFT_MARGIN - MIN_RIGHT_MARGIN) / (card_scale * card_size.2))

/-- `card_cols_landscape` (merger.py lines 189-192). -/
def card_cols_landscape (paper_size : ℚ × ℚ) (card_scale : ℚ) (card_size : ℚ × ℚ) : ℤ :=
  pyInt ((paper_size.2 - MIN_TOP_MARGIN - MIN_BOTTOM_MARGIN) / (card_scale * card_size.1))

/-- The branch condition of merger.py lines 194-197: landscape is used exactly
when its `cols * rows` product is strictly greater than portrait's. -/
def use_landscape (paper_size : ℚ × ℚ) (card_scale : ℚ) (card_size : ℚ × ℚ) : Bool :=
  decide (card_cols_landscape paper_size card_scale card_size *
      card_rows_landscape paper_size card_scale card_size >
    card_cols_portrait paper_size card_scale card_size *
      card_rows_portrait paper_size card_scale card_size)

/-- The local `card_cols` after the orientation choice (merger.py lines 198-204). -/
def chosen_card_cols (paper_size : ℚ × ℚ) (card_scale : ℚ) (card_size : ℚ × ℚ) : ℤ :=
  if use_landscape paper_size card_scale card_size then
    card_cols_landscape paper_size card_scale card_size
  else
    card_cols_portrait paper_size card_scale card_size

/-- The local `card_rows` after the orientation choice (merger.py lines 198-204). -/
def chosen_card_rows (paper_size : ℚ × ℚ) (card_scale : ℚ) (card_size : ℚ × ℚ) : ℤ :=
  if use_landscape paper_size card_scale card_size then
    card_rows_landscape paper_size card_scale card_size
  else
    card_rows_portrait paper_size card_scale card_size

/-- `CardMerger.determine_page_layout` (merger.py lines 160-260), with the
merger's mutable `self.paper_size` and `self.card_scale` passed explicitly. -/
def determine_page_layout (paper_size : ℚ × ℚ) (card_scale : ℚ)
    (original_card_size : ℚ × ℚ) : Option PageLayout :=
  let scaled_card_width := card_scale * original_card_size.1
  let scaled_card_height := card_scale * original_card_size.2
  let card_cols := chosen_card_cols paper_size card_scale original_card_size
  let card_rows := chosen_card_rows paper_size card_scale original_card_size
  if card_cols < 1 ∨ card_rows < 1 then none
  else if use_landscape paper_size card_scale original_card_size then
    some {
      paper_size := (paper_size.2, paper_size.1)
      cards_per_page := card_rows * card_cols
      card_rows := card_rows
      card_cols := card_cols
      card_height := scaled_card_height
      card_width := scaled_card_width
      card_scale := card_scale
      left_margin := MIN_TOP_MARGIN +
        (paper_size.2 - MIN_TOP_MARGIN - MIN_BOTTOM_MARGIN -
          scaled_card_width * (card_cols : ℚ)) / 2
      bottom_margin := MIN_LEFT_MARGIN +
        (paper_size.1 - MIN_LEFT_MARGIN - MIN_RIGHT_MARGIN -
          scaled_card_height * (card_rows : ℚ)) / 2 }
  else
    some {
      paper_size := paper_size
      cards_per_page := card_rows * card_cols
      card_rows := card_rows
      card_cols := card_cols
      card_height := scaled_card_height
      card_width := scaled_card_width
      card_scale := card_scale
      left_margin := MIN_LEFT_MARGIN +
        (paper_size.1 - MIN_LEFT_MARGIN - MIN_RIGHT_MARGIN -
          scaled_card_width * (card_cols : ℚ)) / 2
      bottom_margin := MIN_BOTTOM_MARGIN +
        (paper_size.2 - MIN_TOP_MARGIN - MIN_BOTTOM_MARGIN -
          scaled_card_height * (card_rows : ℚ)) / 2 }

/-- The dataclass `CardInfo` (merger.py lines 85-88): a path and a
`(width, height)` card size. -/
structure CardInfo where
  path_to_pdf : String
  card_size : ℚ × ℚ
deriving DecidableEq

/-- `CardMerger.group_cards_by_sizes` (merger.py lines 262-275).  The Python
code iterates over the *set* `card_sizes = {ci.card_size for ci in
card_infos}`; the iteration order of that hash set is not defined by the
source, so it is passed here as an explicit enumeration `size_order` of the
distinct sizes.  `card_dict` is the merger's `self.card_dict`, total because
callers only pass vetted names (Python raises `KeyError` otherwise). -/
def group_cards_by_sizes (card_dict : String → CardInfo) (size_order : List (ℚ × ℚ))
    (cards : List String) : List (List CardInfo) :=
  let card_infos := cards.map card_dict
  size_order.map (fun size => card_infos.filter (fun card_info => decide (card_info.card_size = size)))

/-- The per-card cell data computed by the composition loop of
`CardMerger.create_cards_file` (merger.py lines 326-339): `page_position =
card_ct % cards_per_page`, `row_no = page_position // card_cols`, `col_no =
page_position % card_cols`, `tx = left_margin + col_no * card_width`,
`ty = bottom_margin + row_no * card_height`.  Python `%` and `//` on
nonnegative ints are `Int.emod` and `Int.ediv`. -/
def placement_of (page_layout : PageLayout) (card_ct : ℕ) : ℤ × ℤ × ℚ × ℚ :=
  let page_position := (card_ct : ℤ).emod page_layout.cards_per_page
  let row_no := page_position.ediv page_layout.card_cols
  let col_no := page_position.emod page_layout.card_cols
  (row_no, col_no,
   page_layout.left_margin + (col_no : ℚ) * page_layout.card_width,
   page_layout.bottom_margin + (row_no : ℚ) * page_layout.card_height)

/-- One iteration of the composition loop (merger.py lines 325-339): when
`page_position == 0` a new blank sheet is allocated (`addBlankPage`) and the
card goes onto it; otherwise the card is merged onto the current (last)
sheet. -/
def compose_step (page_layout : PageLayout) (sheets : List (List (ℤ × ℤ × ℚ × ℚ)))
    (card_ct : ℕ) : List (List (ℤ × ℤ × ℚ × ℚ)) :=
  if (card_ct : ℤ).emod page_layout.cards_per_page = 0 then
    sheets ++ [[placement_of page_layout card_ct]]
  else
    sheets.dropLast ++ [sheets.getLastD [] ++ [placement_of page_layout card_ct]]

/-- The whole composition loop over one size-group of `n` cards
(`for card_ct, card in enumerate(card_group)`), returning the sheets in
allocation order, each holding its cards' `(row_no, col_no, tx, ty)` in
placement order. -/
def compose_group (page_layout : PageLayout) (n : ℕ) : List (List (ℤ × ℤ × ℚ × ℚ)) :=
  (List.range n).foldl (compose_step page_layout) []

/-- A PDF annotation as the merge loop sees it: its `/Rect` `(x0, y0, x1, y1)`
and its `/Open` flag. -/
structure Annot where
  rect : ℚ × ℚ × ℚ × ℚ
  open_state : Bool
deriving DecidableEq

/-- The annotation rewrite of merger.py lines 342-365: `/Open` is forced to
`False` and `/Rect` becomes `(x0 + tx, y0 + ty, x1 + tx, y1 + ty)`. -/
def fix_annot (tx ty : ℚ) (annot : Annot) : Annot :=
  { rect := (annot.rect.1 + tx, annot.rect.2.1 + ty,
      annot.rect.2.2.1 + tx, annot.rect.2.2.2 + ty)
    open_state := false }

/-- Observable events of `CardMerger.create_cards_file`, in program order. -/
inductive Ev where
  | logError : Ev
  | logWarning : Ev
  | addBlankPage : Ev
  | mergePage (tx ty scale : ℚ) : Ev
  | openOutput : Ev
  | writeOutput : Ev
  | crashIndexError : Ev
  | crashAttributeError : Ev
deriving DecidableEq

/-- The per-group part of `create_cards_file`'s main loop (merger.py lines
321-373).  `card_group[0].card_size` raises `IndexError` on an empty group;
when `determine_page_layout` returned `None`, the first loop iteration
evaluates `page_layout.cards_per_page` and raises `AttributeError`.  The
`Bool` is false when the group raised, aborting the job. -/
def process_group (paper_size : ℚ × ℚ) (card_scale : ℚ) (card_group : List CardInfo) :
    List Ev × Bool :=
  match card_group with
  | [] => ([Ev.crashIndexError], false)
  | first_card :: rest =>
    match determine_page_layout paper_size card_scale first_card.card_size with
    | none => ([Ev.crashAttributeError], false)
    | some page_layout =>
      (List.flatten ((List.range (first_card :: rest).length).map (fun (card_ct : ℕ) =>
        (if (card_ct : ℤ).emod page_layout.cards_per_page = 0 then [Ev.addBlankPage] else []) ++
          [Ev.mergePage (placement_of page_layout card_ct).2.2.1
            (placement_of page_layout card_ct).2.2.2 page_layout.card_scale])),
       true)

/-- The loop `for card_group in grouped_cards` with exception propagation: an
uncaught exception in one group aborts everything after it. -/
def compose_groups (paper_size : ℚ × ℚ) (card_scale : ℚ)
    (grouped_cards : List (List CardInfo)) : List Ev × Bool :=
  grouped_cards.foldl
    (fun acc card_group =>
      if acc.2 then
        let r := process_group paper_size card_scale card_group
        (acc.1 ++ r.1, r.2)
      else acc)
    ([], true)

/-- `CardMerger.create_cards_file` (merger.py lines 277-376) as an event
trace.  File-system facts are abstracted as inputs: `list_ext` is the
extension of `path_to_card_list`, `list_is_file` whether the list file
exists, and `card_set` the parsed, lowercased card names.  `card_dict` is the
merger's catalog as an association list and `size_order` the iteration order
of the Python set of sizes (see `group_cards_by_sizes`).  The output file
`pdf_name` is only ever touched by the final `with open(pdf_name, "wb")`
(merger.py line 375), after the whole composition loop. -/
def create_cards_file (paper_size : ℚ × ℚ) (card_scale : ℚ)
    (card_dict : List (String × CardInfo)) (size_order : List (ℚ × ℚ))
    (list_ext : String) (list_is_file : Bool) (card_set : List String) : List Ev :=
  if list_ext ≠ ".txt" then [Ev.logError]
  else if list_is_file = false then [Ev.logError]
  else
    let known_cards := card_set.filter (fun card => (card_dict.lookup card).isSome)
    let unknown_cards := card_set.filter (fun card => (card_dict.lookup card).isNone)
    let warn_evs := if unknown_cards = [] then [] else [Ev.logWarning, Ev.logWarning]
    if known_cards = [] then warn_evs ++ [Ev.logError]
    else
      let grouped_cards := group_cards_by_sizes
        (fun card => (card_dict.lookup card).getD ⟨"", (0, 0)⟩) size_order known_cards
      let comp := compose_groups paper_size card_scale grouped_cards
      warn_evs ++ comp.1 ++ (if comp.2 then [Ev.openOutput, Ev.writeOutput] else [])

lemma pyInt_cast_le (q : ℚ) (hq : 0 ≤ q) : (pyInt q : ℚ) ≤ q := by
  unfold pyInt
  rw [if_pos hq]
  exact Int.floor_le q

lemma one_le_of_one_le_pyInt (q : ℚ) (h : 1 ≤ pyInt q) : (1 : ℚ) ≤ q := by
  unfold pyInt at h
  by_cases hq : 0 ≤ q
  · rw [if_pos hq] at h
    exact_mod_cast Int.le_floor.mp h
  · rw [if_neg hq] at h
    push_neg at hq
    have hc : ⌈q⌉ ≤ 0 := Int.ceil_le.mpr (by exact_mod_cast hq.le)
    omega

/-- A truncated column/row count of at least 1 forces the grid span to fit in
the available axis length. -/
lemma pyInt_mul_le (avail w : ℚ) (hw : 0 < w) (h1 : 1 ≤ pyInt (avail / w)) :
    (pyInt (avail / w) : ℚ) * w ≤ avail := by
  have hq : (1 : ℚ) ≤ avail / w := one_le_of_one_le_pyInt _ h1
  have hle : (pyInt (avail / w) : ℚ) ≤ avail / w :=
    pyInt_cast_le _ (le_trans zero_le_one hq)
  calc (pyInt (avail / w) : ℚ) * w ≤ (avail / w) * w :=
        mul_le_mul_of_nonneg_right hle hw.le
    _ = avail := div_mul_cancel₀ avail hw.ne'

/-- Inversion of `determine_page_layout`: a returned layout records the chosen
orientation's counts, the scaled card dimensions, and the orientation's
margin formulas, and both chosen counts are at least 1. -/
lemma determine_page_layout_inv (p : ℚ × ℚ) (s : ℚ) (c : ℚ × ℚ) (l : PageLayout)
    (h : determine_page_layout p s c = some l) :
    1 ≤ chosen_card_cols p s c ∧ 1 ≤ chosen_card_rows p s c ∧
    l.card_cols = chosen_card_cols p s c ∧ l.card_rows = chosen_card_rows p s c ∧
    l.cards_per_page = chosen_card_rows p s c * chosen_card_cols p s c ∧
    l.card_width = s * c.1 ∧ l.card_height = s * c.2 ∧ l.card_scale = s ∧
    (use_landscape p s c = true →
      l.paper_size = (p.2, p.1) ∧
      l.left_margin = MIN_TOP_MARGIN + (p.2 - MIN_TOP_MARGIN - MIN_BOTTOM_MARGIN -
        s * c.1 * (chosen_card_cols p s c : ℚ)) / 2 ∧
      l.bottom_margin = MIN_LEFT_MARGIN + (p.1 - MIN_LEFT_MARGIN - MIN_RIGHT_MARGIN -
        s * c.2 * (chosen_card_rows p s c : ℚ)) / 2) ∧
    (use_landscape p s c = false →
      l.paper_size = p ∧
      l.left_margin = MIN_LEFT_MARGIN + (p.1 - MIN_LEFT_MARGIN - MIN_RIGHT_MARGIN -
        s * c.1 * (chosen_card_cols p s c : ℚ)) / 2 ∧
      l.bottom_margin = MIN_BOTTOM_MARGIN + (p.2 - MIN_TOP_MARGIN - MIN_BOTTOM_MARGIN -
        s * c.2 * (chosen_card_rows p s c : ℚ)) / 2) := by
  have hzeta : determine_page_layout p s c =
      (if chosen_card_cols p s c < 1 ∨ chosen_card_rows p s c < 1 then none
       else if use_landscape p s c then
        some {
          paper_size := (p.2, p.1)
          cards_per_page := chosen_card_rows p s c * chosen_card_cols p s c
          card_rows := chosen_card_rows p s c
          card_cols := chosen_card_cols p s c
          card_height := s * c.2
          card_width := s * c.1
          card_scale := s
          left_margin := MIN_TOP_MARGIN + (p.2 - MIN_TOP_MARGIN - MIN_BOTTOM_MARGIN -
            s * c.1 * (chosen_card_cols p s c : ℚ)) / 2
          bottom_margin := MIN_LEFT_MARGIN + (p.1 - MIN_LEFT_MARGIN - MIN_RIGHT_MARGIN -
            s * c.2 * (chosen_card_rows p s c : ℚ)) / 2 }
       else
        some {
          paper_size := p
          cards_per_page := chosen_card_rows p s c * chosen_card_cols p s c
          card_rows := chosen_card_rows p s c
          card_cols := chosen_card_cols p s c
          card_height := s * c.2
          card_width := s * c.1
          card_scale := s
          left_margin := MIN_LEFT_MARGIN + (p.1 - MIN_LEFT_MARGIN - MIN_RIGHT_MARGIN -
            s * c.1 * (chosen_card_cols p s c : ℚ)) / 2
          bottom_margin := MIN_BOTTOM_MARGIN + (p.2 - MIN_TOP_MARGIN - MIN_BOTTOM_MARGIN -
            s * c.2 * (chosen_card_rows p s c : ℚ)) / 2 }) := rfl
  rw [hzeta] at h
  by_cases hbad : chosen_card_cols p s c < 1 ∨ chosen_card_rows p s c < 1
  · rw [if_pos hbad] at h
    cases h
  · rw [if_neg hbad] at h
    push_neg at hbad
    obtain ⟨hcols, hrows⟩ := hbad
    cases hul : use_landscape p s c
    · rw [hul] at h
      rw [if_neg (by simp)] at h
      rw [Option.some_inj] at h
      subst h
      exact ⟨hcols, hrows, rfl, rfl, rfl, rfl, rfl, rfl,
        fun htrue => Bool.noConfusion htrue, fun _ => ⟨rfl, rfl, rfl⟩⟩
    · rw [hul] at h
      rw [if_pos rfl] at h
      rw [Option.some_inj] at h
      subst h
      exact ⟨hcols, hrows, rfl, rfl, rfl, rfl, rfl, rfl,
        fun _ => ⟨rfl, rfl, rfl⟩, fun hfalse => Bool.noConfusion hfalse⟩

lemma use_landscape_iff (p : ℚ × ℚ) (s : ℚ) (c : ℚ × ℚ) :
    use_landscape p s c = true ↔
      card_cols_portrait p s c * card_rows_portrait p s c <
        card_cols_landscape p s c * card_rows_landscape p s c := by
  unfold use_landscape
  exact decide_eq_true_iff

/-- The layout the code actually computes for card size `(200, 280)` on
LETTER at scale 1: landscape, 3 columns by 2 rows. -/
def letter_200x280_layout : PageLayout :=
  { paper_size := (792, 612), cards_per_page := 6, card_rows := 2, card_cols := 3,
    card_height := 280, card_width := 200, card_scale := 1,
    left_margin := 87, bottom_margin := 26 }

lemma determine_letter_200x280 :
    determine_page_layout LETTER 1 (200, 280) = some letter_200x280_layout := by
  simp only [determine_page_layout, chosen_card_cols, chosen_card_rows, use_landscape,
    card_cols_portrait, card_rows_portrait, card_cols_landscape, card_rows_landscape,
    pyInt, LETTER, MIN_LEFT_MARGIN, MIN_RIGHT_MARGIN, MIN_TOP_MARGIN, MIN_BOTTOM_MARGIN,
    letter_200x280_layout]
  norm_num

/-- The layout the code computes for card size `(250, 300)` on LETTER at
scale 1: portrait, 2 columns by 2 rows, four cards per page. -/
def letter_250x300_layout : PageLayout :=
  { paper_size := (612, 792), cards_per_page := 4, card_rows := 2, card_cols := 2,
    card_height := 300, card_width := 250, card_scale := 1,
    left_margin := 56, bottom_margin := 105 }

lemma determine_letter_250x300 :
    determine_page_layout LETTER 1 (250, 300) = some letter_250x300_layout := by
  simp only [determine_page_layout, chosen_card_cols, chosen_card_rows, use_landscape,
    card_cols_portrait, card_rows_portrait, card_cols_landscape, card_rows_landscape,
    pyInt, LETTER, MIN_LEFT_MARGIN, MIN_RIGHT_MARGIN, MIN_TOP_MARGIN, MIN_BOTTOM_MARGIN,
    letter_250x300_layout]
  norm_num

/-- Claim C2, as stated, is false: for card size `(200, 280)` on LETTER
`(612, 792)` at scale 1.0, `determine_page_layout` does *not* return a
portrait layout with 2 columns, 2 rows and 4 cards per page. -/
theorem claim_C2_counterexample :
    (determine_page_layout LETTER 1 (200, 280)).map
      (fun l => (l.paper_size, l.card_cols, l.card_rows, l.cards_per_page)) ≠
    some (((612 : ℚ), (792 : ℚ)), 2, 2, 4) := by
  rw [determine_letter_200x280]
  intro hcontra
  rw [Option.map_some', Option.some_inj] at hcontra
  have h3 : (3 : ℤ) = 2 := congrArg (fun t => t.2.1) hcontra
  omega

/-- Claim C2, amended: for card size `(200, 280)` on LETTER `(612, 792)` at
scale 1.0, `determine_page_layout` returns a landscape layout (paper size
swapped to `(792, 612)`) with `card_cols = 3`, `card_rows = 2` and
`cards_per_page = 6`. -/
theorem claim_C2_amended :
    (determine_page_layout LETTER 1 (200, 280)).map
      (fun l => (l.paper_size, l.card_cols, l.card_rows, l.cards_per_page)) =
    some (((792 : ℚ), (612 : ℚ)), 3, 2, 6) := by
  rw [determine_letter_200x280]
  rfl

/-- Claim C3, as stated, is false: the layout returned for card size
`(200, 280)` on LETTER at scale 1 (a scale `> 0`) has `bottom_margin = 26`,
below `MIN_BOTTOM_MARGIN = 36` — in the landscape branch the code anchors the
bottom margin at `MIN_LEFT_MARGIN`. -/
theorem claim_C3_counterexample :
    (determine_page_layout LETTER 1 (200, 280)).map PageLayout.bottom_margin = some 26 ∧
    ¬ MIN_BOTTOM_MARGIN ≤ (26 : ℚ) := by
  constructor
  · rw [determine_letter_200x280]
    rfl
  · norm_num [MIN_BOTTOM_MARGIN]

/-- What claim C3 asserts of a layout, which the code delivers in its
portrait branch: margins at least the minimums, each centring the grid on
its axis against the input paper size `p`. -/
def portrait_margins_ok (p : ℚ × ℚ) (l : PageLayout) : Prop :=
  MIN_BOTTOM_MARGIN ≤ l.bottom_margin ∧
  l.left_margin - MIN_LEFT_MARGIN =
    (p.1 - MIN_LEFT_MARGIN - MIN_RIGHT_MARGIN - (l.card_cols : ℚ) * l.card_width) / 2 ∧
  l.bottom_margin - MIN_BOTTOM_MARGIN =
    (p.2 - MIN_TOP_MARGIN - MIN_BOTTOM_MARGIN - (l.card_rows : ℚ) * l.card_height) / 2

/-- What the landscape branch of the code actually delivers: the bottom
margin is anchored at `MIN_LEFT_MARGIN` (18, not 36) against the base paper
width, and the left margin at `MIN_TOP_MARGIN` against the base paper
height. -/
def landscape_margins_ok (p : ℚ × ℚ) (l : PageLayout) : Prop :=
  MIN_LEFT_MARGIN ≤ l.bottom_margin ∧
  l.bottom_margin - MIN_LEFT_MARGIN =
    (p.1 - MIN_LEFT_MARGIN - MIN_RIGHT_MARGIN - (l.card_rows : ℚ) * l.card_height) / 2 ∧
  l.left_margin - MIN_TOP_MARGIN =
    (p.2 - MIN_TOP_MARGIN - MIN_BOTTOM_MARGIN - (l.card_cols : ℚ) * l.card_width) / 2

/-- Claim C3, amended: for positive scale and card dimensions, every layout
`determine_page_layout` returns has `left_margin ≥ MIN_LEFT_MARGIN`; the
claimed bound `bottom_margin ≥ MIN_BOTTOM_MARGIN` and the claimed centring
identities hold in the portrait orientation, while in the landscape
orientation the bottom margin is only bounded by `MIN_LEFT_MARGIN = 18` and
the centring identities use the swapped anchors the code computes. -/
theorem claim_C3_amended (p : ℚ × ℚ) (s : ℚ) (c : ℚ × ℚ) (l : PageLayout)
    (hs : 0 < s) (hw : 0 < c.1) (hh : 0 < c.2)
    (h : determine_page_layout p s c = some l) :
    MIN_LEFT_MARGIN ≤ l.left_margin ∧
    (use_landscape p s c = false → portrait_margins_ok p l) ∧
    (use_landscape p s c = true → landscape_margins_ok p l) := by
  obtain ⟨hcols, hrows, hlc, hlr, hcpp, hlw, hlh, hlsc, htrue, hfalse⟩ :=
    determine_page_layout_inv p s c l h
  have hw' : 0 < s * c.1 := mul_pos hs hw
  have hh' : 0 < s * c.2 := mul_pos hs hh
  by_cases hul : use_landscape p s c = true
  case neg =>
    have hul0 : use_landscape p s c = false := by
      revert hul
      cases use_landscape p s c <;> simp
    obtain ⟨hps, hlm, hbm⟩ := hfalse hul0
    have hulc : chosen_card_cols p s c = card_cols_portrait p s c := by
      simp [chosen_card_cols, hul0]
    have hulr : chosen_card_rows p s c = card_rows_portrait p s c := by
      simp [chosen_card_rows, hul0]
    rw [hulc] at hcols
    rw [hulr] at hrows
    have hspanw : (card_cols_portrait p s c : ℚ) * (s * c.1) ≤
        p.1 - MIN_LEFT_MARGIN - MIN_RIGHT_MARGIN := pyInt_mul_le _ _ hw' hcols
    have hspanh : (card_rows_portrait p s c : ℚ) * (s * c.2) ≤
        p.2 - MIN_TOP_MARGIN - MIN_BOTTOM_MARGIN := pyInt_mul_le _ _ hh' hrows
    have hspanw' : s * c.1 * (card_cols_portrait p s c : ℚ) ≤
        p.1 - MIN_LEFT_MARGIN - MIN_RIGHT_MARGIN := by rwa [mul_comm] at hspanw
    have hspanh' : s * c.2 * (card_rows_portrait p s c : ℚ) ≤
        p.2 - MIN_TOP_MARGIN - MIN_BOTTOM_MARGIN := by rwa [mul_comm] at hspanh
    refine ⟨?_, fun _ => ⟨?_, ?_, ?_⟩, fun habs => absurd habs (by simp [hul0])⟩
    · rw [hlm, hulc]
      linarith
    · rw [hbm, hulr]
      linarith
    · rw [hlm, hlc, hlw, hulc]
      ring
    · rw [hbm, hlr, hlh, hulr]
      ring
  case pos =>
    obtain ⟨hps, hlm, hbm⟩ := htrue hul
    have hulc : chosen_card_cols p s c = card_cols_landscape p s c := by
      simp [chosen_card_cols, hul]
    have hulr : chosen_card_rows p s c = card_rows_landscape p s c := by
      simp [chosen_card_rows, hul]
    rw [hulc] at hcols
    rw [hulr] at hrows
    have hspanw : (card_cols_landscape p s c : ℚ) * (s * c.1) ≤
        p.2 - MIN_TOP_MARGIN - MIN_BOTTOM_MARGIN := pyInt_mul_le _ _ hw' hcols
    have hspanh : (card_rows_landscape p s c : ℚ) * (s * c.2) ≤
        p.1 - MIN_LEFT_MARGIN - MIN_RIGHT_MARGIN := pyInt_mul_le _ _ hh' hrows
    have hspanw' : s * c.1 * (card_cols_landscape p s c : ℚ) ≤
        p.2 - MIN_TOP_MARGIN - MIN_BOTTOM_MARGIN := by rwa [mul_comm] at hspanw
    have hspanh' : s * c.2 * (card_rows_landscape p s c : ℚ) ≤
        p.1 - MIN_LEFT_MARGIN - MIN_RIGHT_MARGIN := by rwa [mul_comm] at hspanh
    refine ⟨?_, fun habs => absurd hul (by simp [habs]), fun _ => ⟨?_, ?_, ?_⟩⟩
    · rw [hlm, hulc]
      simp only [MIN_LEFT_MARGIN, MIN_TOP_MARGIN, MIN_BOTTOM_MARGIN, MIN_RIGHT_MARGIN] at *
      linarith
    · rw [hbm, hulr]
      linarith
    · rw [hbm, hlr, hlh, hulr]
      ring
    · rw [hlm, hlc, hlw, hulc]
      ring

/-- Witness for claim C3's amended theorem at LETTER, scale 1, card size
`(200, 280)`, whose layout is the landscape `letter_200x280_layout`. -/
theorem claim_C3_amended_witness :
    MIN_LEFT_MARGIN ≤ letter_200x280_layout.left_margin ∧
    (use_landscape LETTER 1 (200, 280) = false →
      portrait_margins_ok LETTER letter_200x280_layout) ∧
    (use_landscape LETTER 1 (200, 280) = true →
      landscape_margins_ok LETTER letter_200x280_layout) :=
  claim_C3_amended LETTER 1 (200, 280) letter_200x280_layout (by norm_num)
    (by norm_num) (by norm_num) determine_letter_200x280

/-- Claim C4: whenever `determine_page_layout` returns a layout, the chosen
orientation's `cols * rows` product is at least both candidates' products;
when landscape does not beat portrait strictly (ties included) the portrait
candidate is used, and landscape is used exactly on strict improvement. -/
theorem claim_C4_orientation_choice (p : ℚ × ℚ) (s : ℚ) (c : ℚ × ℚ) (l : PageLayout)
    (h : determine_page_layout p s c = some l) :
    card_cols_portrait p s c * card_rows_portrait p s c ≤ l.card_cols * l.card_rows ∧
    card_cols_landscape p s c * card_rows_landscape p s c ≤ l.card_cols * l.card_rows ∧
    (card_cols_landscape p s c * card_rows_landscape p s c ≤
        card_cols_portrait p s c * card_rows_portrait p s c →
      l.card_cols = card_cols_portrait p s c ∧ l.card_rows = card_rows_portrait p s c ∧
      l.paper_size = p) ∧
    (card_cols_portrait p s c * card_rows_portrait p s c <
        card_cols_landscape p s c * card_rows_landscape p s c →
      l.card_cols = card_cols_landscape p s c ∧ l.card_rows = card_rows_landscape p s c ∧
      l.paper_size = (p.2, p.1)) := by
  obtain ⟨hcols, hrows, hlc, hlr, hcpp, hlw, hlh, hlsc, htrue, hfalse⟩ :=
    determine_page_layout_inv p s c l h
  by_cases hul : use_landscape p s c = true
  · have hlt := (use_landscape_iff p s c).mp hul
    obtain ⟨hps, hlm2, hbm2⟩ := htrue hul
    have hulc : chosen_card_cols p s c = card_cols_landscape p s c := by
      simp [chosen_card_cols, hul]
    have hulr : chosen_card_rows p s c = card_rows_landscape p s c := by
      simp [chosen_card_rows, hul]
    rw [hlc, hlr, hulc, hulr]
    exact ⟨le_of_lt hlt, le_refl _, fun hle => absurd hlt (not_lt.mpr hle),
      fun _ => ⟨rfl, rfl, hps⟩⟩
  · have hul0 : use_landscape p s c = false := by
      revert hul
      cases use_landscape p s c <;> simp
    have hnlt : ¬ (card_cols_portrait p s c * card_rows_portrait p s c <
        card_cols_landscape p s c * card_rows_landscape p s c) :=
      fun hlt => hul ((use_landscape_iff p s c).mpr hlt)
    obtain ⟨hps, hlm2, hbm2⟩ := hfalse hul0
    have hulc : chosen_card_cols p s c = card_cols_portrait p s c := by
      simp [chosen_card_cols, hul0]
    have hulr : chosen_card_rows p s c = card_rows_portrait p s c := by
      simp [chosen_card_rows, hul0]
    rw [hlc, hlr, hulc, hulr]
    exact ⟨le_refl _, not_lt.mp hnlt, fun _ => ⟨rfl, rfl, hps⟩,
      fun hlt => absurd hlt hnlt⟩

/-- Witness for claim C4's theorem at LETTER, scale 1, card size
`(200, 280)` (a case where landscape strictly wins: 6 > 4). -/
theorem claim_C4_witness :
    card_cols_portrait LETTER 1 (200, 280) * card_rows_portrait LETTER 1 (200, 280) ≤
      letter_200x280_layout.card_cols * letter_200x280_layout.card_rows ∧
    card_cols_landscape LETTER 1 (200, 280) * card_rows_landscape LETTER 1 (200, 280) ≤
      letter_200x280_layout.card_cols * letter_200x280_layout.card_rows ∧
    (card_cols_landscape LETTER 1 (200, 280) * card_rows_landscape LETTER 1 (200, 280) ≤
        card_cols_portrait LETTER 1 (200, 280) * card_rows_portrait LETTER 1 (200, 280) →
      letter_200x280_layout.card_cols = card_cols_portrait LETTER 1 (200, 280) ∧
      letter_200x280_layout.card_rows = card_rows_portrait LETTER 1 (200, 280) ∧
      letter_200x280_layout.paper_size = LETTER) ∧
    (card_cols_portrait LETTER 1 (200, 280) * card_rows_portrait LETTER 1 (200, 280) <
        card_cols_landscape LETTER 1 (200, 280) * card_rows_landscape LETTER 1 (200, 280) →
      letter_200x280_layout.card_cols = card_cols_landscape LETTER 1 (200, 280) ∧
      letter_200x280_layout.card_rows = card_rows_landscape LETTER 1 (200, 280) ∧
      letter_200x280_layout.paper_size = (LETTER.2, LETTER.1)) :=
  claim_C4_orientation_choice LETTER 1 (200, 280) letter_200x280_layout
    determine_letter_200x280

/-- Claim C10: any returned layout's grid fits inside its (possibly swapped)
sheet on both axes, and it has at least one row, one column and one card per
page — so the composer's `% cards_per_page` and `// card_cols` never divide
by zero on a valid layout. -/
theorem claim_C10_grid_fits (p : ℚ × ℚ) (s : ℚ) (c : ℚ × ℚ) (l : PageLayout)
    (hs : 0 < s) (hw : 0 < c.1) (hh : 0 < c.2)
    (h : determine_page_layout p s c = some l) :
    l.left_margin + (l.card_cols : ℚ) * l.card_width ≤ l.paper_size.1 ∧
    l.bottom_margin + (l.card_rows : ℚ) * l.card_height ≤ l.paper_size.2 ∧
    1 ≤ l.cards_per_page ∧ 1 ≤ l.card_cols ∧ 1 ≤ l.card_rows := by
  obtain ⟨hcols, hrows, hlc, hlr, hcpp, hlw, hlh, hlsc, htrue, hfalse⟩ :=
    determine_page_layout_inv p s c l h
  have hw' : 0 < s * c.1 := mul_pos hs hw
  have hh' : 0 < s * c.2 := mul_pos hs hh
  have hcpp1 : 1 ≤ l.cards_per_page := by
    rw [hcpp]
    have h11 : (1 : ℤ) * 1 ≤ chosen_card_rows p s c * chosen_card_cols p s c :=
      mul_le_mul hrows hcols (by norm_num) (by linarith)
    simpa using h11
  by_cases hul : use_landscape p s c = true
  · obtain ⟨hps, hlm, hbm⟩ := htrue hul
    have hulc : chosen_card_cols p s c = card_cols_landscape p s c := by
      simp [chosen_card_cols, hul]
    have hulr : chosen_card_rows p s c = card_rows_landscape p s c := by
      simp [chosen_card_rows, hul]
    have hspanw : (card_cols_landscape p s c : ℚ) * (s * c.1) ≤
        p.2 - MIN_TOP_MARGIN - MIN_BOTTOM_MARGIN :=
      pyInt_mul_le _ _ hw' (by rw [hulc] at hcols; exact hcols)
    have hspanh : (card_rows_landscape p s c : ℚ) * (s * c.2) ≤
        p.1 - MIN_LEFT_MARGIN - MIN_RIGHT_MARGIN :=
      pyInt_mul_le _ _ hh' (by rw [hulr] at hrows; exact hrows)
    refine ⟨?_, ?_, hcpp1, by rw [hlc]; exact hcols, by rw [hlr]; exact hrows⟩
    · rw [hlm, hlc, hlw, hulc, hps]
      simp only [MIN_LEFT_MARGIN, MIN_RIGHT_MARGIN, MIN_TOP_MARGIN, MIN_BOTTOM_MARGIN] at hspanw ⊢
      have hc2 := mul_comm ((card_cols_landscape p s c : ℚ)) (s * c.1)
      linarith [hspanw, hc2.ge, hc2.le]
    · rw [hbm, hlr, hlh, hulr, hps]
      simp only [MIN_LEFT_MARGIN, MIN_RIGHT_MARGIN, MIN_TOP_MARGIN, MIN_BOTTOM_MARGIN] at hspanh ⊢
      have hc2 := mul_comm ((card_rows_landscape p s c : ℚ)) (s * c.2)
      linarith [hspanh, hc2.ge, hc2.le]
  · have hul0 : use_landscape p s c = false := by
      revert hul
      cases use_landscape p s c <;> simp
    obtain ⟨hps, hlm, hbm⟩ := hfalse hul0
    have hulc : chosen_card_cols p s c = card_cols_portrait p s c := by
      simp [chosen_card_cols, hul0]
    have hulr : chosen_card_rows p s c = card_rows_portrait p s c := by
      simp [chosen_card_rows, hul0]
    have hspanw : (card_cols_portrait p s c : ℚ) * (s * c.1) ≤
        p.1 - MIN_LEFT_MARGIN - MIN_RIGHT_MARGIN :=
      pyInt_mul_le _ _ hw' (by rw [hulc] at hcols; exact hcols)
    have hspanh : (card_rows_portrait p s c : ℚ) * (s * c.2) ≤
        p.2 - MIN_TOP_MARGIN - MIN_BOTTOM_MARGIN :=
      pyInt_mul_le _ _ hh' (by rw [hulr] at hrows; exact hrows)
    refine ⟨?_, ?_, hcpp1, by rw [hlc]; exact hcols, by rw [hlr]; exact hrows⟩
    · rw [hlm, hlc, hlw, hulc, hps]
      simp only [MIN_LEFT_MARGIN, MIN_RIGHT_MARGIN] at hspanw ⊢
      have hc2 := mul_comm ((card_cols_portrait p s c : ℚ)) (s * c.1)
      linarith [hspanw, hc2.ge, hc2.le]
    · rw [hbm, hlr, hlh, hulr, hps]
      simp only [MIN_TOP_MARGIN, MIN_BOTTOM_MARGIN] at hspanh ⊢
      have hc2 := mul_comm ((card_rows_portrait p s c : ℚ)) (s * c.2)
      linarith [hspanh, hc2.ge, hc2.le]

/-- Witness for claim C10's theorem at LETTER, scale 1, card size
`(250, 300)` (portrait) — concretely `56 + 2*250 ≤ 612` and
`105 + 2*300 ≤ 792`. -/
theorem claim_C10_witness :
    letter_250x300_layout.left_margin +
      (letter_250x300_layout.card_cols : ℚ) * letter_250x300_layout.card_width ≤
      letter_250x300_layout.paper_size.1 ∧
    letter_250x300_layout.bottom_margin +
      (letter_250x300_layout.card_rows : ℚ) * letter_250x300_layout.card_height ≤
      letter_250x300_layout.paper_size.2 ∧
    1 ≤ letter_250x300_layout.cards_per_page ∧
    1 ≤ letter_250x300_layout.card_cols ∧ 1 ≤ letter_250x300_layout.card_rows :=
  claim_C10_grid_fits LETTER 1 (250, 300) letter_250x300_layout (by norm_num)
    (by norm_num) (by norm_num) determine_letter_250x300

/-- Sheet count of the composition loop: a new sheet appears exactly for the
cards whose `page_position` is 0. -/
lemma compose_group_length (l : PageLayout) (n : ℕ) :
    (compose_group l n).length =
      (List.range n).countP (fun (i : ℕ) => decide ((i : ℤ).emod l.cards_per_page = 0)) := by
  induction n with
  | zero => rfl
  | succ n ih =>
    have hstep : compose_group l (n + 1) = compose_step l (compose_group l n) n := by
      rw [compose_group, compose_group, List.range_succ, List.foldl_append]
      rfl
    rw [hstep, List.range_succ, List.countP_append]
    by_cases hz : (n : ℤ).emod l.cards_per_page = 0
    · rw [compose_step, if_pos hz]
      simp [ih, hz]
    · rw [compose_step, if_neg hz]
      have hn0 : n ≠ 0 := by
        intro h0
        subst h0
        exact hz (Int.zero_emod _)
      have hpos : 0 < (compose_group l n).length := by
        rw [ih]
        refine List.countP_pos_iff.mpr ⟨0, List.mem_range.mpr (Nat.pos_of_ne_zero hn0), ?_⟩
        exact decide_eq_true (Int.zero_emod _)
      have hcount1 : List.countP (fun (i : ℕ) => decide ((i : ℤ).emod l.cards_per_page = 0)) [n] = 0 := by
        simp [hz]
      rw [hcount1, List.length_append, List.length_dropLast]
      simp only [List.length_cons, List.length_nil]
      omega

/-- Claim C5: the composer derives each card's cell from its zero-based index
by `cellIndex = i mod cards_per_page`, `row = cellIndex div card_cols`,
`col = cellIndex mod card_cols`, `tx = left_margin + col * card_width`,
`ty = bottom_margin + row * card_height`; a new blank sheet is allocated
exactly for the indices with `cellIndex = 0`; and with the four-per-page
layout `determine_page_layout` yields for `(250, 300)` on LETTER, 5 cards
produce exactly 2 sheets, the second holding one card at row 0, column 0. -/
theorem claim_C5_cell_assignment :
    (∀ (l : PageLayout) (i : ℕ),
      placement_of l i =
        (((i : ℤ).emod l.cards_per_page).ediv l.card_cols,
         ((i : ℤ).emod l.cards_per_page).emod l.card_cols,
         l.left_margin + ((((i : ℤ).emod l.cards_per_page).emod l.card_cols : ℤ) : ℚ) * l.card_width,
         l.bottom_margin + ((((i : ℤ).emod l.cards_per_page).ediv l.card_cols : ℤ) : ℚ) * l.card_height)) ∧
    (∀ (l : PageLayout) (n : ℕ),
      (compose_group l n).length =
        (List.range n).countP (fun (i : ℕ) => decide ((i : ℤ).emod l.cards_per_page = 0))) ∧
    determine_page_layout LETTER 1 (250, 300) = some letter_250x300_layout ∧
    letter_250x300_layout.cards_per_page = 4 ∧
    (compose_group letter_250x300_layout 5).length = 2 ∧
    (compose_group letter_250x300_layout 5).getLastD [] = [(0, 0, 56, 105)] := by
  refine ⟨fun l i => rfl, compose_group_length, determine_letter_250x300, rfl, ?_, ?_⟩
  · show (List.foldl (compose_step letter_250x300_layout) [] (List.range 5)).length = 2
    rw [show List.range 5 = [0, 1, 2, 3, 4] from rfl]
    simp only [List.foldl_cons, List.foldl_nil]
    norm_num [compose_step, placement_of, letter_250x300_layout]
  · show (List.foldl (compose_step letter_250x300_layout) [] (List.range 5)).getLastD [] =
      [(0, 0, 56, 105)]
    rw [show List.range 5 = [0, 1, 2, 3, 4] from rfl]
    simp only [List.foldl_cons, List.foldl_nil]
    norm_num [compose_step, placement_of, letter_250x300_layout]

/-- Claim C6: merging translates every annotation rectangle by
`(tx, ty, tx, ty)` and forces the `/Open` flag to false; in particular rect
`(10, 10, 50, 30)` at `tx = 36`, `ty = 54` becomes `(46, 64, 86, 84)` with
the flag false. -/
theorem claim_C6_annot_translation :
    (∀ (tx ty x0 y0 x1 y1 : ℚ) (b : Bool),
      fix_annot tx ty ⟨(x0, y0, x1, y1), b⟩ =
        ⟨(x0 + tx, y0 + ty, x1 + tx, y1 + ty), false⟩) ∧
    fix_annot 36 54 ⟨(10, 10, 50, 30), true⟩ = ⟨(46, 64, 86, 84), false⟩ := by
  refine ⟨fun tx ty x0 y0 x1 y1 b => rfl, ?_⟩
  rw [fix_annot]
  norm_num

/-- Claim C7: on every fatal path — wrong list extension, missing list file,
or zero known cards — `create_cards_file` returns before the output file is
opened for writing, so the trace contains neither the opening nor the
writing of the output file. -/
theorem claim_C7_fatal_before_output (paper_size : ℚ × ℚ) (card_scale : ℚ)
    (card_dict : List (String × CardInfo)) (size_order : List (ℚ × ℚ))
    (list_ext : String) (list_is_file : Bool) (card_set : List String)
    (hfatal : list_ext ≠ ".txt" ∨ list_is_file = false ∨
      card_set.filter (fun card => (card_dict.lookup card).isSome) = []) :
    Ev.openOutput ∉ create_cards_file paper_size card_scale card_dict size_order
      list_ext list_is_file card_set ∧
    Ev.writeOutput ∉ create_cards_file paper_size card_scale card_dict size_order
      list_ext list_is_file card_set := by
  by_cases h1 : list_ext = ".txt"
  · by_cases h2 : list_is_file = false
    · simp [create_cards_file, h1, h2]
    · have h2' : list_is_file = true := by
        revert h2
        cases list_is_file <;> simp
      have h3 : card_set.filter (fun card => (card_dict.lookup card).isSome) = [] := by
        rcases hfatal with h | h | h
        · exact absurd h1 h
        · exact absurd h (by rw [h2']; simp)
        · exact h
      by_cases h4 : card_set.filter (fun card => (card_dict.lookup card).isNone) = []
      · simp [create_cards_file, h1, h2', h3, h4]
      · simp [create_cards_file, h1, h2', h3, h4]
  · simp [create_cards_file, h1]

/-- Witness for claim C7's theorem: a card list path ending in `.pdf` is
fatal and no output event appears in the trace. -/
theorem claim_C7_witness :
    Ev.openOutput ∉ create_cards_file LETTER 1 [] [] ".pdf" true [] ∧
    Ev.writeOutput ∉ create_cards_file LETTER 1 [] [] ".pdf" true [] :=
  claim_C7_fatal_before_output LETTER 1 [] [] ".pdf" true []
    (Or.inl (by simp))

lemma determine_letter_700x900 : determine_page_layout LETTER 1 (700, 900) = none := by
  simp only [determine_page_layout, chosen_card_cols, chosen_card_rows, use_landscape,
    card_cols_portrait, card_rows_portrait, card_cols_landscape, card_rows_landscape,
    pyInt, LETTER, MIN_LEFT_MARGIN, MIN_RIGHT_MARGIN, MIN_TOP_MARGIN, MIN_BOTTOM_MARGIN]
  norm_num

/-- An oversized card that fits in neither orientation of LETTER. -/
def big_card : CardInfo := ⟨"big.pdf", (700, 900)⟩

/-- A card whose size yields the portrait four-per-page layout. -/
def small_card : CardInfo := ⟨"small.pdf", (250, 300)⟩

/-- A catalog holding one infeasible and one feasible card size. -/
def big_small_card_dict : List (String × CardInfo) :=
  [("big", big_card), ("small", small_card)]

/-- Zeta-reduced unfolding of `create_cards_file`. -/
lemma create_cards_file_eq (paper_size : ℚ × ℚ) (card_scale : ℚ)
    (card_dict : List (String × CardInfo)) (size_order : List (ℚ × ℚ))
    (list_ext : String) (list_is_file : Bool) (card_set : List String) :
    create_cards_file paper_size card_scale card_dict size_order list_ext list_is_file card_set =
      if list_ext ≠ ".txt" then [Ev.logError]
      else if list_is_file = false then [Ev.logError]
      else if card_set.filter (fun card => (card_dict.lookup card).isSome) = [] then
        (if card_set.filter (fun card => (card_dict.lookup card).isNone) = [] then []
          else [Ev.logWarning, Ev.logWarning]) ++ [Ev.logError]
      else
        (if card_set.filter (fun card => (card_dict.lookup card).isNone) = [] then []
          else [Ev.logWarning, Ev.logWarning]) ++
        (compose_groups paper_size card_scale (group_cards_by_sizes
          (fun card => (card_dict.lookup card).getD ⟨"", (0, 0)⟩) size_order
          (card_set.filter (fun card => (card_dict.lookup card).isSome)))).1 ++
        (if (compose_groups paper_size card_scale (group_cards_by_sizes
            (fun card => (card_dict.lookup card).getD ⟨"", (0, 0)⟩) size_order
            (card_set.filter (fun card => (card_dict.lookup card).isSome)))).2 then
          [Ev.openOutput, Ev.writeOutput]
         else []) := rfl

/-- The composition events for the one-card infeasible group: the `None`
layout is dereferenced on the first iteration. -/
lemma process_group_big :
    process_group LETTER 1 [big_card] = ([Ev.crashAttributeError], false) := by
  have h0 : process_group LETTER 1 [big_card] =
      (match determine_page_layout LETTER 1 (700, 900) with
       | none => ([Ev.crashAttributeError], false)
       | some page_layout =>
         (List.flatten ((List.range 1).map (fun (card_ct : ℕ) =>
           (if (card_ct : ℤ).emod page_layout.cards_per_page = 0 then [Ev.addBlankPage]
             else []) ++
             [Ev.mergePage (placement_of page_layout card_ct).2.2.1
               (placement_of page_layout card_ct).2.2.2 page_layout.card_scale])),
          true)) := rfl
  rw [h0, determine_letter_700x900]

/-- The composition events for the one-card feasible group. -/
lemma process_group_small :
    process_group LETTER 1 [small_card] =
      ([Ev.addBlankPage, Ev.mergePage 56 105 1], true) := by
  have h0 : process_group LETTER 1 [small_card] =
      (match determine_page_layout LETTER 1 (250, 300) with
       | none => ([Ev.crashAttributeError], false)
       | some page_layout =>
         (List.flatten ((List.range 1).map (fun (card_ct : ℕ) =>
           (if (card_ct : ℤ).emod page_layout.cards_per_page = 0 then [Ev.addBlankPage]
             else []) ++
             [Ev.mergePage (placement_of page_layout card_ct).2.2.1
               (placement_of page_layout card_ct).2.2.2 page_layout.card_scale])),
          true)) := rfl
  rw [h0, determine_letter_250x300]
  norm_num [placement_of, letter_250x300_layout, List.range_succ]

lemma known_big_small :
    List.filter (fun card => (big_small_card_dict.lookup card).isSome) ["big", "small"] =
      ["big", "small"] := by
  simp [big_small_card_dict, List.lookup]

lemma unknown_big_small :
    List.filter (fun card => (big_small_card_dict.lookup card).isNone) ["big", "small"] = [] := by
  simp [big_small_card_dict, List.lookup]

lemma grouped_big_first :
    group_cards_by_sizes (fun card => (big_small_card_dict.lookup card).getD ⟨"", (0, 0)⟩)
      [(700, 900), (250, 300)] ["big", "small"] = [[big_card], [small_card]] := by
  decide

lemma grouped_small_first :
    group_cards_by_sizes (fun card => (big_small_card_dict.lookup card).getD ⟨"", (0, 0)⟩)
      [(250, 300), (700, 900)] ["big", "small"] = [[small_card], [big_card]] := by
  decide

lemma compose_big_first :
    compose_groups LETTER 1 [[big_card], [small_card]] = ([Ev.crashAttributeError], false) := by
  simp [compose_groups, process_group_big]

lemma compose_small_first :
    compose_groups LETTER 1 [[small_card], [big_card]] =
      ([Ev.addBlankPage, Ev.mergePage 56 105 1, Ev.crashAttributeError], false) := by
  simp [compose_groups, process_group_small, process_group_big]

/-- Claim C1 describes intended behavior the code does not implement:
`create_cards_file` never checks `determine_page_layout` for `None`.  On a
group with an infeasible size the first loop iteration evaluates
`page_layout.cards_per_page` on `None` and raises `AttributeError`, aborting
the whole job: no warning for the group, no sheets for the other, feasible
group, and no output file — whichever order the groups are processed in. -/
theorem claim_C1_code_bug_eval :
    determine_page_layout LETTER 1 (700, 900) = none ∧
    create_cards_file LETTER 1 big_small_card_dict [(700, 900), (250, 300)]
      ".txt" true ["big", "small"] = [Ev.crashAttributeError] ∧
    create_cards_file LETTER 1 big_small_card_dict [(250, 300), (700, 900)]
      ".txt" true ["big", "small"] =
      [Ev.addBlankPage, Ev.mergePage 56 105 1, Ev.crashAttributeError] ∧
    Ev.writeOutput ∉ create_cards_file LETTER 1 big_small_card_dict
      [(250, 300), (700, 900)] ".txt" true ["big", "small"] ∧
    Ev.logWarning ∉ create_cards_file LETTER 1 big_small_card_dict
      [(700, 900), (250, 300)] ".txt" true ["big", "small"] := by
  have h1 : create_cards_file LETTER 1 big_small_card_dict [(700, 900), (250, 300)]
      ".txt" true ["big", "small"] = [Ev.crashAttributeError] := by
    rw [create_cards_file_eq, if_neg (by simp), if_neg (by simp), known_big_small,
      unknown_big_small, grouped_big_first, compose_big_first]
    rw [if_neg (by simp), if_pos rfl]
    simp
  have h2 : create_cards_file LETTER 1 big_small_card_dict [(250, 300), (700, 900)]
      ".txt" true ["big", "small"] =
      [Ev.addBlankPage, Ev.mergePage 56 105 1, Ev.crashAttributeError] := by
    rw [create_cards_file_eq, if_neg (by simp), if_neg (by simp), known_big_small,
      unknown_big_small, grouped_small_first, compose_small_first]
    rw [if_neg (by simp), if_pos rfl]
    simp
  refine ⟨determine_letter_700x900, h1, h2, ?_, ?_⟩
  · rw [h2]
    simp
  · rw [h1]
    simp

/-- Joining the per-size filters over an exact, duplicate-free enumeration of
the occurring sizes permutes the original list. -/
lemma join_map_filter_perm (infos : List CardInfo) (size_order : List (ℚ × ℚ))
    (hnd : size_order.Nodup)
    (hmem : ∀ s2, s2 ∈ size_order ↔ s2 ∈ infos.map CardInfo.card_size) :
    (List.flatten (size_order.map (fun size =>
      infos.filter (fun card_info => decide (card_info.card_size = size))))).Perm infos := by
  induction size_order generalizing infos with
  | nil =>
    cases infos with
    | nil => simp
    | cons a as =>
      exfalso
      have hin : a.card_size ∈ (a :: as).map CardInfo.card_size := by simp
      exact absurd ((hmem a.card_size).mpr hin) (by simp)
  | cons s rest ih =>
    have hnd' : rest.Nodup := hnd.of_cons
    have hs_not : s ∉ rest := (List.nodup_cons.mp hnd).1
    have hmap : rest.map (fun size =>
          infos.filter (fun ci => decide (ci.card_size = size)))
        = rest.map (fun size => (infos.filter (fun ci => !decide (ci.card_size = s))).filter
            (fun ci => decide (ci.card_size = size))) := by
      apply List.map_congr_left
      intro s2 hs2
      have hne : s2 ≠ s := fun hEq => hs_not (hEq ▸ hs2)
      rw [List.filter_filter]
      apply List.filter_congr
      intro ci _
      by_cases hsz : ci.card_size = s2
      · simp [hsz, hne]
      · simp [hsz]
    have hmem' : ∀ s2, s2 ∈ rest ↔
        s2 ∈ (infos.filter (fun ci => !decide (ci.card_size = s))).map CardInfo.card_size := by
      intro s2
      constructor
      · intro hs2
        have hne : s2 ≠ s := fun hEq => hs_not (hEq ▸ hs2)
        obtain ⟨ci, hci, hcisz⟩ :=
          List.mem_map.mp ((hmem s2).mp (List.mem_cons_of_mem _ hs2))
        refine List.mem_map.mpr ⟨ci, List.mem_filter.mpr ⟨hci, ?_⟩, hcisz⟩
        simp [hcisz, hne]
      · intro hs2
        obtain ⟨ci, hci, hcisz⟩ := List.mem_map.mp hs2
        obtain ⟨hci_in, hci_ne⟩ := List.mem_filter.mp hci
        simp only [Bool.not_eq_eq_eq_not, Bool.not_true, decide_eq_false_iff_not] at hci_ne
        have hne : s2 ≠ s := fun hEq => hci_ne (hcisz.trans hEq)
        have h2 := (hmem s2).mpr (List.mem_map.mpr ⟨ci, hci_in, hcisz⟩)
        rcases List.mem_cons.mp h2 with hEq | hr
        · exact absurd hEq hne
        · exact hr
    rw [List.map_cons, List.flatten_cons, hmap]
    have hperm := ih (infos.filter (fun ci => !decide (ci.card_size = s))) hnd' hmem'
    exact (hperm.append_left _).trans (List.filter_append_perm _ infos)

lemma countP_eq_one_of_nodup_mem {α : Type*} [DecidableEq α] {a : α} {l : List α}
    (hnd : l.Nodup) (ha : a ∈ l) :
    l.countP (fun x => decide (x = a)) = 1 := by
  induction l with
  | nil => cases ha
  | cons b bs ih =>
    obtain ⟨hb_not, hnd2⟩ := List.nodup_cons.mp hnd
    rw [List.countP_cons]
    rcases List.mem_cons.mp ha with rfl | hmem
    · have h0 : bs.countP (fun x => decide (x = a)) = 0 :=
        List.countP_eq_zero.mpr (fun x hx => by
          simp only [decide_eq_true_eq]
          exact fun hEq => hb_not (hEq ▸ hx))
      simp [h0]
    · have hba : ¬ (b = a) := fun hEq => hb_not (hEq ▸ hmem)
      simp [ih hnd2 hmem, hba]

/-- Claim C8: for vetted inputs, `group_cards_by_sizes` is a partition — the
concatenation of the groups is a permutation of the input card infos, each
group is size-uniform, and each input card belongs to exactly one group —
for any duplicate-free enumeration of exactly the occurring sizes (the order
in which Python's size set iterates). -/
theorem claim_C8_partition (card_dict : String → CardInfo) (size_order : List (ℚ × ℚ))
    (cards : List String)
    (hnd : size_order.Nodup)
    (hmem : ∀ s2, s2 ∈ size_order ↔ s2 ∈ (cards.map card_dict).map CardInfo.card_size) :
    (List.flatten (group_cards_by_sizes card_dict size_order cards)).Perm
      (cards.map card_dict) ∧
    (∀ g ∈ group_cards_by_sizes card_dict size_order cards,
      ∀ a ∈ g, ∀ b ∈ g, a.card_size = b.card_size) ∧
    (∀ ci ∈ cards.map card_dict,
      (group_cards_by_sizes card_dict size_order cards).countP
        (fun g => decide (ci ∈ g)) = 1) := by
  refine ⟨join_map_filter_perm _ _ hnd hmem, ?_, ?_⟩
  · intro g hg a ha b hb
    obtain ⟨s2, hs2, rfl⟩ := List.mem_map.mp hg
    have ha' := (List.mem_filter.mp ha).2
    have hb' := (List.mem_filter.mp hb).2
    simp only [decide_eq_true_eq] at ha' hb'
    rw [ha', hb']
  · intro ci hci
    unfold group_cards_by_sizes
    rw [List.countP_map]
    have hcong : List.countP ((fun g => decide (ci ∈ g)) ∘ (fun size =>
        (cards.map card_dict).filter (fun card_info => decide (card_info.card_size = size))))
        size_order =
        List.countP (fun s2 => decide (s2 = ci.card_size)) size_order := by
      apply List.countP_congr
      intro s2 hs2
      simp only [Function.comp, decide_eq_true_eq, List.mem_filter]
      exact ⟨fun h => h.2.symm, fun h => ⟨hci, h.symm⟩⟩
    rw [hcong]
    exact countP_eq_one_of_nodup_mem hnd
      ((hmem ci.card_size).mpr (List.mem_map.mpr ⟨ci, hci, rfl⟩))

/-- A two-card catalog with two distinct sizes, for the C8 witness. -/
def witness_card_dict : String → CardInfo := fun card =>
  if card = "a" then ⟨"a.pdf", (250, 300)⟩ else ⟨"b.pdf", (700, 900)⟩

/-- Witness for claim C8's theorem on a concrete two-card, two-size input. -/
theorem claim_C8_witness :
    (List.flatten (group_cards_by_sizes witness_card_dict [(250, 300), (700, 900)]
      ["a", "b"])).Perm (["a", "b"].map witness_card_dict) ∧
    (∀ g ∈ group_cards_by_sizes witness_card_dict [(250, 300), (700, 900)] ["a", "b"],
      ∀ a ∈ g, ∀ b ∈ g, a.card_size = b.card_size) ∧
    (∀ ci ∈ ["a", "b"].map witness_card_dict,
      (group_cards_by_sizes witness_card_dict [(250, 300), (700, 900)] ["a", "b"]).countP
        (fun g => decide (ci ∈ g)) = 1) :=
  claim_C8_partition witness_card_dict [(250, 300), (700, 900)] ["a", "b"]
    (by decide)
    (fun s2 => by
      rw [show (["a", "b"].map witness_card_dict).map CardInfo.card_size =
        [(250, 300), (700, 900)] from by decide])
